import Mathlib

/-!
# Verification of the workshop-demo todo service

Shallow embedding of the Express/PostgreSQL/Spaces todo server.  The
repository contains four near-duplicate variants of `server.js`:

* `src/server.js`            — embedded as `createServerJs` / `deleteServerJs` …
* `src/unnamed/part_000`     — embedded as `createPart000` / `deletePart000` …
* `src/unnamed/part_001`     — embedded as `createPart001`
* `src/unnamed/part_002`     — embedded as `createPart002`

The database is modelled as a list of rows plus the SERIAL counter; the
blob store is modelled by an oracle argument (`upl : Option String` is the
`Location` returned by `s3.upload` when it resolves, `none` when it
rejects; `blobDeleteOk : Bool` tells whether `s3.deleteObject` resolves).
Timestamps are a `Nat` supplied per request (`now`), standing for both
`Date.now()` and `CURRENT_TIMESTAMP`.  `VARCHAR` length limits are not
modelled; every string used in the development is short.
-/

namespace WorkshopDemo

/-- One row of the `todos` table (schema from `initDB`, src/server.js:56-67).
`title` is `NOT NULL`; `description`, `completed`, `file_url`, `file_name`
are nullable columns, hence `Option`. `completed` has `DEFAULT FALSE`. -/
structure Row where
  id : Nat
  title : String
  description : Option String
  completed : Option Bool
  file_url : Option String
  file_name : Option String
  created_at : Nat
  updated_at : Nat
deriving DecidableEq, Repr

/-- The `todos` table: its rows plus the next value of the `SERIAL` id. -/
structure DB where
  rows : List Row
  nextId : Nat
deriving DecidableEq, Repr

def emptyDB : DB := { rows := [], nextId := 1 }

/-- A multipart file as multer presents it on `req.file`. -/
structure FileUpload where
  originalname : String
  mimetype : String
  size : Nat
deriving DecidableEq, Repr

/-- JavaScript truthiness of an optional string (`undefined`, `null` and
`""` are falsy; every non-empty string is truthy). -/
def jsTruthy : Option String → Bool
  | none => false
  | some s => !s.data.isEmpty

/-- Tests whether the first list is an initial segment of the second. -/
def leadMatch : List Char → List Char → Bool
  | [], _ => true
  | _ :: _, [] => false
  | a :: as, b :: bs => a == b && leadMatch as bs

/-- Tests whether `pat` occurs contiguously inside the second list. -/
def hasSub (pat : List Char) : List Char → Bool
  | [] => leadMatch pat []
  | b :: bs => leadMatch pat (b :: bs) || hasSub pat bs

/-- Returns `true` iff `pat` occurs somewhere in `s` — the effect of an
unanchored `RegExp.test` with a literal alternative. -/
def strContains (s pat : String) : Bool :=
  hasSub pat.data s.data

/-- The test `/jpeg|jpg|png|gif|pdf|txt/.test s` (src/server.js:41-43): unanchored
alternation, so a substring match of any alternative suffices. -/
def allowedTypesTest (s : String) : Bool :=
  ["jpeg", "jpg", "png", "gif", "pdf", "txt"].any (fun t => strContains s t)

/-- Returns the suffix starting at the last dot of the list, if any. -/
def extTail : List Char → Option (List Char)
  | [] => none
  | c :: cs =>
    match extTail cs with
    | some t => some t
    | none => if c == '.' then some (c :: cs) else none

/-- Model of Node `path.extname` on a plain file name (no directory
separators): everything from the last dot on, except that a dot in first
position (as in `.bashrc`) does not count as an extension separator. -/
def extname (s : String) : String :=
  match s.data with
  | [] => ""
  | c :: cs =>
    let body := if c == '.' then cs else c :: cs
    match extTail body with
    | some t => String.mk t
    | none => ""

/-- ASCII lower-casing, the effect of `toLowerCase` on our file names. -/
def lowerStr (s : String) : String :=
  String.mk (s.data.map Char.toLower)

/-- The multer `fileFilter` callback (src/server.js:40-50): accepts iff both
the lower-cased extension and the MIME type match the allow-list regex. -/
def fileFilterOk (f : FileUpload) : Bool :=
  allowedTypesTest (lowerStr (extname f.originalname)) && allowedTypesTest f.mimetype

/-- How multer rejects a file: `LIMIT_FILE_SIZE` is a `MulterError`; a
`fileFilter` rejection is the plain `Error` built at src/server.js:48. -/
inductive MulterReject
  | limitFileSize
  | filterError
deriving DecidableEq, Repr

/-- The limit `fileSize: 5 * 1024 * 1024` (src/server.js:38). -/
def fileSizeLimit : Nat := 5 * 1024 * 1024

/-- The multer parsing boundary: the `fileFilter` is consulted on the
file's headers, and the byte-count limit fires when the payload exceeds
`fileSizeLimit`. `none` means the file is accepted and the route handler
runs. -/
def multerGate (f : FileUpload) : Option MulterReject :=
  if !fileFilterOk f then some .filterError
  else if fileSizeLimit < f.size then some .limitFileSize
  else none

/-- The error-handling middleware (src/server.js:190-198): a `MulterError`
with code `LIMIT_FILE_SIZE` gets 400; every other error — including the
plain `Error` thrown by `fileFilter` — falls through to the 500 branch. -/
def errorMiddlewareStatus : MulterReject → Nat
  | .limitFileSize => 400
  | .filterError => 500

/-- The row produced by
`INSERT INTO todos (title, description, file_url, file_name) VALUES … RETURNING *`
when it succeeds: `id` from the SERIAL counter, `completed` defaulted to
`FALSE`, both timestamps defaulted to `CURRENT_TIMESTAMP`. -/
def insertedRow (db : DB) (now : Nat) (t : String) (d : Option String)
    (u n : Option String) : Row :=
  { id := db.nextId, title := t, description := d, completed := some false,
    file_url := u, file_name := n, created_at := now, updated_at := now }

/-- The INSERT statement itself. `node-postgres` sends `undefined` as SQL
`NULL`, so a missing title violates the `NOT NULL` constraint and the
statement fails (`none`); otherwise the new row is appended and the
SERIAL counter advances. -/
def insertTodo (db : DB) (now : Nat) (title : Option String)
    (d : Option String) (u n : Option String) : Option (Row × DB) :=
  match title with
  | none => none
  | some t =>
    some (insertedRow db now t d u n,
          { rows := db.rows ++ [insertedRow db now t d u n], nextId := db.nextId + 1 })

/-- Result of a create route: HTTP status, resulting table state, the JSON
body (`result.rows[0]`) on 201, and whether `s3.upload` was invoked. -/
structure CreateOutcome where
  status : Nat
  db : DB
  body : Option Row
  uploadAttempted : Bool
deriving DecidableEq, Repr

/-- Handler `app.post('/api/todos')` of src/server.js:100-132 (after multer).
There is no title check.  When a file is present the handler declares
`const fileName = `${Date.now()}-${req.file.originalname}`` (line 108,
shadowing the outer `let fileName`), uploads under that key, and then at
line 119 executes `fileName = req.file.originalname` — an assignment to
the block-scoped `const`, which throws `TypeError: Assignment to constant
variable`.  The `catch` turns both this and a rejected upload into 500,
and the INSERT is never reached. -/
def createServerJs (db : DB) (now : Nat) (title description : Option String)
    (file : Option FileUpload) (upl : Option String) : CreateOutcome :=
  match file with
  | some _f =>
    match upl with
    | none =>
      -- `await s3.upload(…).promise()` rejected → caught → 500, no INSERT
      { status := 500, db := db, body := none, uploadAttempted := true }
    | some _loc =>
      -- upload resolved, then `fileName = req.file.originalname` throws
      -- (assignment to the `const` of line 108) → caught → 500, no INSERT
      { status := 500, db := db, body := none, uploadAttempted := true }
  | none =>
    match insertTodo db now title description none none with
    | some (row, db') => { status := 201, db := db', body := some row, uploadAttempted := false }
    | none => { status := 500, db := db, body := none, uploadAttempted := false }

/-- Handler `app.post('/api/todos')` of src/unnamed/part_000:164-215.  Returns 503
when the database is not configured; rejects a falsy title with 400
before touching storage; attempts the upload only when Spaces is
configured, and a rejected upload is caught at lines 197-200 and the
handler continues without the attachment. -/
def createPart000 (db : DB) (now : Nat) (dbConfigured spacesConfigured : Bool)
    (title description : Option String) (file : Option FileUpload)
    (upl : Option String) : CreateOutcome :=
  if !dbConfigured then
    { status := 503, db := db, body := none, uploadAttempted := false }
  else if !jsTruthy title then
    { status := 400, db := db, body := none, uploadAttempted := false }
  else
    let att : Option String × Option String × Bool :=
      match file with
      | some f =>
        if spacesConfigured then
          match upl with
          | some loc => (some loc, some f.originalname, true)
          | none => (none, none, true)       -- catch (uploadError): continue without file
        else (none, none, false)             -- upload skipped, Spaces not configured
      | none => (none, none, false)
    match insertTodo db now title description att.1 att.2.1 with
    | some (row, db') => { status := 201, db := db', body := some row, uploadAttempted := att.2.2 }
    | none => { status := 500, db := db, body := none, uploadAttempted := att.2.2 }

/-- Handler `app.post('/api/todos')` of src/unnamed/part_001:106-138.  No title
check; a rejected upload propagates to the catch (500, no INSERT); on
success the row stores `fileName = uploadFileName`, i.e. the DERIVED
timestamp-prefixed key, not the original name (line 124). -/
def createPart001 (db : DB) (now : Nat) (title description : Option String)
    (file : Option FileUpload) (upl : Option String) : CreateOutcome :=
  match file with
  | some f =>
    match upl with
    | none => { status := 500, db := db, body := none, uploadAttempted := true }
    | some loc =>
      match insertTodo db now title description (some loc)
          (some (toString now ++ "-" ++ f.originalname)) with
      | some (row, db') => { status := 201, db := db', body := some row, uploadAttempted := true }
      | none => { status := 500, db := db, body := none, uploadAttempted := true }
  | none =>
    match insertTodo db now title description none none with
    | some (row, db') => { status := 201, db := db', body := some row, uploadAttempted := false }
    | none => { status := 500, db := db, body := none, uploadAttempted := false }

/-- Handler `app.post('/api/todos')` of src/unnamed/part_002:124-161.  Rejects a
falsy title with 400.  Unlike the other variants, part_002 configures multer
with `dest: 'uploads/'` (disk storage, line 37), so `req.file.buffer` is
undefined — the file's bytes are on disk at `req.file.path`, read only by
the unused `uploadToSpaces` helper (lines 76-103).  The inline
`s3.upload({ …, Body: req.file.buffer })` at lines 138-146 therefore always
rejects (aws-sdk refuses a missing `Body`) no matter how the blob store
would answer: the `upl` oracle is never consulted, the catch answers 500,
and the INSERT is never reached.  The attachment branch writing
`fileName = req.file.originalname` (line 148) is dead code. -/
def createPart002 (db : DB) (now : Nat) (title description : Option String)
    (file : Option FileUpload) (upl : Option String) : CreateOutcome :=
  if !jsTruthy title then
    { status := 400, db := db, body := none, uploadAttempted := false }
  else
    match file with
    | some _f =>
      -- s3.upload invoked with Body undefined → rejects → caught → 500
      let _ := upl
      { status := 500, db := db, body := none, uploadAttempted := true }
    | none =>
      match insertTodo db now title description none none with
      | some (row, db') => { status := 201, db := db', body := some row, uploadAttempted := false }
      | none => { status := 500, db := db, body := none, uploadAttempted := false }

/-- The full POST route of src/server.js: `upload.single('file')` runs
first; if multer rejects, the error middleware answers and the handler
never runs (no upload, table untouched); otherwise the handler of
src/server.js:100-132 runs. -/
def postRouteServerJs (db : DB) (now : Nat) (title description : Option String)
    (file : Option FileUpload) (upl : Option String) : CreateOutcome :=
  match file with
  | some f =>
    match multerGate f with
    | some rej =>
      { status := errorMiddlewareStatus rej, db := db, body := none, uploadAttempted := false }
    | none => createServerJs db now title description (some f) upl
  | none => createServerJs db now title description none upl

/-- Query `SELECT * FROM todos WHERE id = $1` returning at most one row. -/
def findRow (db : DB) (id : Nat) : Option Row :=
  db.rows.find? (fun r => r.id == id)

/-- Statement `DELETE FROM todos WHERE id = $1`. -/
def removeRow (db : DB) (id : Nat) : DB :=
  { db with rows := db.rows.filter (fun r => !(r.id == id)) }

/-- Result of a delete route: HTTP status, resulting table state, and how
many `s3.deleteObject` calls were made. -/
structure DeleteOutcome where
  status : Nat
  db : DB
  blobDeletes : Nat
deriving DecidableEq, Repr

/-- Handler `app.delete('/api/todos/:id')` of src/server.js:157-183.  404 when the
row is absent.  When the row has a `file_url`, `s3.deleteObject` is
awaited with NO inner try/catch: a rejection propagates to the outer
catch, the row DELETE at line 177 never runs, and the response is 500. -/
def deleteServerJs (db : DB) (id : Nat) (blobDeleteOk : Bool) : DeleteOutcome :=
  match findRow db id with
  | none => { status := 404, db := db, blobDeletes := 0 }
  | some row =>
    match row.file_url with
    | some _ =>
      if blobDeleteOk then
        { status := 200, db := removeRow db id, blobDeletes := 1 }
      else
        { status := 500, db := db, blobDeletes := 1 }
    | none => { status := 200, db := removeRow db id, blobDeletes := 0 }

/-- Handler `app.delete('/api/todos/:id')` of src/unnamed/part_000:240-275.  Same
shape, but the `s3.deleteObject` call sits in its own try/catch
(lines 256-264): a rejection is logged and swallowed, and the row DELETE
proceeds either way. -/
def deletePart000 (db : DB) (id : Nat) (blobDeleteOk : Bool) : DeleteOutcome :=
  match findRow db id with
  | none => { status := 404, db := db, blobDeletes := 0 }
  | some row =>
    match row.file_url with
    | some _ =>
      -- catch (deleteError): logged, deletion of the row continues;
      -- `blobDeleteOk` is deliberately unread — both outcomes are swallowed
      let _ := blobDeleteOk
      { status := 200, db := removeRow db id, blobDeletes := 1 }
    | none => { status := 200, db := removeRow db id, blobDeletes := 0 }

/-- The row written by
`UPDATE todos SET title=$1, description=$2, completed=$3, updated_at=CURRENT_TIMESTAMP`:
the three body fields overwrite unconditionally; `id`, `file_url`,
`file_name`, `created_at` are untouched. -/
def updateRowFn (now : Nat) (t : String) (d : Option String) (c : Option Bool)
    (r : Row) : Row :=
  { r with title := t, description := d, completed := c, updated_at := now }

/-- Result of the update route: HTTP status, resulting table state, and
the JSON body (`result.rows[0]`) on 200. -/
structure UpdateOutcome where
  status : Nat
  db : DB
  body : Option Row
deriving DecidableEq, Repr

/-- Handler `app.put('/api/todos/:id')` of src/server.js:135-154.  When no row
matches the id the UPDATE affects nothing, `result.rows` is empty and the
route answers 404 (no upsert).  When a row matches and the body's `title`
is missing, `node-postgres` sends `NULL` and the `NOT NULL` constraint
aborts the statement: the catch answers 500 with the table unchanged.
Otherwise every matching row is overwritten with the body's values and
`updated_at` is refreshed. -/
def updateTodos (db : DB) (now : Nat) (id : Nat) (title description : Option String)
    (completed : Option Bool) : UpdateOutcome :=
  if db.rows.any (fun r => r.id == id) then
    match title with
    | none => { status := 500, db := db, body := none }
    | some t =>
      let rows' := db.rows.map (fun r => if r.id == id then updateRowFn now t description completed r else r)
      { status := 200,
        db := { db with rows := rows' },
        body := (rows'.filter (fun r => r.id == id)).head? }
  else
    { status := 404, db := db, body := none }

/-- Ordering used by `SELECT * FROM todos ORDER BY created_at DESC`. -/
def createdDesc (a b : Row) : Prop := b.created_at ≤ a.created_at

instance : DecidableRel createdDesc :=
  fun a b => inferInstanceAs (Decidable (b.created_at ≤ a.created_at))

instance : IsTotal Row createdDesc :=
  ⟨fun a b => Nat.le_total b.created_at a.created_at⟩

instance : IsTrans Row createdDesc :=
  ⟨fun _ _ _ h1 h2 => Nat.le_trans h2 h1⟩

/-- Handler `app.get('/api/todos')` (src/server.js:89-97):
`SELECT * FROM todos ORDER BY created_at DESC`, modelled as a sort of the
table's rows by descending `created_at`. -/
def listTodos (db : DB) : List Row :=
  List.insertionSort createdDesc db.rows

/-- Sample row with an attachment, used as a concrete witness input. -/
def rowA : Row :=
  { id := 1, title := "milk", description := some "two percent",
    completed := some false,
    file_url := some "https://bucket.sgp1.digitaloceanspaces.com/uploads/10-notes.txt",
    file_name := some "notes.txt", created_at := 10, updated_at := 10 }

/-- Sample row without an attachment, used as a concrete witness input. -/
def rowB : Row :=
  { id := 2, title := "bread", description := none, completed := some false,
    file_url := none, file_name := none, created_at := 20, updated_at := 20 }

/-- Sample two-row table, used as a concrete witness input. -/
def dbAB : DB := { rows := [rowA, rowB], nextId := 3 }

/-- An allowed, small upload. -/
def filePng : FileUpload :=
  { originalname := "photo.png", mimetype := "image/png", size := 100 }

/-- An upload whose extension and MIME type are off the allow-list. -/
def fileExe : FileUpload :=
  { originalname := "malware.exe", mimetype := "application/x-msdownload", size := 10 }

/-- An allowed upload one byte over the 5 MB ceiling. -/
def fileBigPng : FileUpload :=
  { originalname := "big.png", mimetype := "image/png", size := 5 * 1024 * 1024 + 1 }

/-- The object URL the blob store returns for a successful upload. -/
def locUrl : String := "https://bucket.sgp1.digitaloceanspaces.com/uploads/5-photo.png"

/-- Claim C1 (code bug): at a create request with the non-empty title `milk`
and an allowed attached file, with the blob upload succeeding, src/server.js
answers 500 with no row inserted — the `const fileName` declared at line 108
is assigned at line 119, which throws before the INSERT — instead of the
claimed 201.  part_000 realises the claimed behaviour on the same input
(201, `file_url` the uploaded URL, `file_name` the original name);
part_001 stores the derived timestamp-prefixed key as `file_name`, and
part_002 also answers 500 on every create-with-file (its disk-storage
multer leaves `req.file.buffer` undefined, so its inline upload always
rejects). -/
theorem c1_serverjs_create_with_file_returns_500 :
    postRouteServerJs emptyDB 5 (some "milk") none (some filePng) (some locUrl) =
      { status := 500, db := emptyDB, body := none, uploadAttempted := true } ∧
    (createPart000 emptyDB 5 true true (some "milk") none (some filePng) (some locUrl)).status
      = 201 ∧
    ((createPart000 emptyDB 5 true true (some "milk") none (some filePng) (some locUrl)).body.map
        Row.file_url) = some (some locUrl) ∧
    ((createPart000 emptyDB 5 true true (some "milk") none (some filePng) (some locUrl)).body.map
        Row.file_name) = some (some "photo.png") ∧
    ((createPart001 emptyDB 5 (some "milk") none (some filePng) (some locUrl)).body.map
        Row.file_name) = some (some "5-photo.png") ∧
    (createPart002 emptyDB 5 (some "milk") none (some filePng) (some locUrl)).status = 500 := by
  decide

/-- Claim C2 counterexample: src/server.js performs no title validation — a
create request with an empty title is answered 201 with a row inserted, and
one with a missing title is answered 500 (NOT NULL violation), not 400. -/
theorem c2_serverjs_has_no_title_validation :
    (postRouteServerJs emptyDB 5 (some "") (some "d") none none).status = 201 ∧
    (postRouteServerJs emptyDB 5 (some "") (some "d") none none).db.rows.length = 1 ∧
    (postRouteServerJs emptyDB 5 none (some "d") none none).status = 500 := by decide

/-- Claim C3 counterexample: when the blob upload fails on a create with a
valid title and an allowed file, src/server.js and part_002 both answer 500
with no row inserted — the upload failure is propagated, not degraded to a
201 without attachment. -/
theorem c3_upload_failure_propagates_to_500 :
    postRouteServerJs emptyDB 5 (some "milk") none (some filePng) none =
      { status := 500, db := emptyDB, body := none, uploadAttempted := true } ∧
    createPart002 emptyDB 5 (some "milk") none (some filePng) none =
      { status := 500, db := emptyDB, body := none, uploadAttempted := true } := by decide

/-- Claim C4 counterexample: in src/server.js, when the row's blob deletion
fails, the delete request is answered 500 and the row is NOT removed — the
failure is not swallowed and the row remains in the table. -/
theorem c4_serverjs_blob_failure_blocks_row_removal :
    deleteServerJs dbAB 1 false = { status := 500, db := dbAB, blobDeletes := 1 } ∧
    findRow (deleteServerJs dbAB 1 false).db 1 = some rowA := by decide

/-- Claim C5 counterexample: an upload with a non-allow-listed extension and
MIME type is rejected before the handler runs (table untouched, no upload
attempted), but with status 500 — the `fileFilter` error is a plain `Error`,
not a `MulterError`, so the error middleware does not map it to 400. -/
theorem c5_disallowed_type_rejected_with_500 :
    postRouteServerJs emptyDB 5 (some "milk") none (some fileExe) (some locUrl) =
      { status := 500, db := emptyDB, body := none, uploadAttempted := false } := by decide

/-- Claim C6 counterexample: the update route overwrites `title` with
whatever the body supplies, including the empty string, so the invariant
that `title` is never empty does not survive updates: updating row 2 with an
empty title is answered 200 and leaves an empty-titled row in the table. -/
theorem c6_update_can_make_title_empty :
    (updateTodos dbAB 7 2 (some "") none (some true)).status = 200 ∧
    (updateTodos dbAB 7 2 (some "") none (some true)).db.rows.any
      (fun r => r.title == "") = true := by decide

/-- Helper: after the row DELETE, no row with the deleted id remains. -/
lemma findRow_removeRow (db : DB) (id : Nat) : findRow (removeRow db id) id = none := by
  simp only [findRow, removeRow, List.find?_eq_none]
  intro r hr
  have := (List.mem_filter.mp hr).2
  simpa using this

/-- Claim C2 amended: the validating variants part_000 (with the database
configured) and part_002 answer 400 for an empty or missing title before
any side effect — the table is unchanged and no upload is attempted;
src/server.js and part_001 perform no such check. -/
theorem c2_amended_validating_variants_reject (db : DB) (now : Nat) (sc : Bool)
    (title description : Option String) (file : Option FileUpload)
    (upl : Option String) (h : jsTruthy title = false) :
    createPart000 db now true sc title description file upl =
      { status := 400, db := db, body := none, uploadAttempted := false } ∧
    createPart002 db now title description file upl =
      { status := 400, db := db, body := none, uploadAttempted := false } := by
  constructor
  · simp [createPart000, h]
  · simp [createPart002, h]

/-- Witness for the amended C2 at a concrete empty-title request. -/
theorem c2_amended_validating_variants_reject_witness :
    jsTruthy (some "") = false ∧
    (createPart000 dbAB 5 true true (some "") (some "d") none none =
      { status := 400, db := dbAB, body := none, uploadAttempted := false } ∧
     createPart002 dbAB 5 (some "") (some "d") none none =
      { status := 400, db := dbAB, body := none, uploadAttempted := false }) :=
  ⟨by decide,
   c2_amended_validating_variants_reject dbAB 5 true (some "") (some "d") none none (by decide)⟩

/-- Claim C3 amended: only part_000 implements the degraded-success policy —
with the database and Spaces configured, a create with a truthy title and a
file whose upload fails still answers 201, inserting the row with both
attachment fields null; in src/server.js, part_001 and part_002 the upload
failure propagates as 500 with no row inserted. -/
theorem c3_amended_part000_degrades (db : DB) (now : Nat) (description : Option String)
    (f : FileUpload) (t : String) (h : jsTruthy (some t) = true) :
    createPart000 db now true true (some t) description (some f) none =
      { status := 201,
        db := { rows := db.rows ++ [insertedRow db now t description none none],
                nextId := db.nextId + 1 },
        body := some (insertedRow db now t description none none),
        uploadAttempted := true } := by
  simp [createPart000, h, insertTodo]

/-- Witness for the amended C3 at a concrete failing upload. -/
theorem c3_amended_part000_degrades_witness :
    jsTruthy (some "milk") = true ∧
    createPart000 dbAB 5 true true (some "milk") (some "d") (some filePng) none =
      { status := 201,
        db := { rows := dbAB.rows ++ [insertedRow dbAB 5 "milk" (some "d") none none],
                nextId := dbAB.nextId + 1 },
        body := some (insertedRow dbAB 5 "milk" (some "d") none none),
        uploadAttempted := true } :=
  ⟨by decide, c3_amended_part000_degrades dbAB 5 (some "d") filePng "milk" (by decide)⟩

/-- Claim C4 amended: in part_000 (and identically part_002) the delete of an
existing row attempts exactly one blob deletion when the row has an
attachment and none otherwise, any blob-deletion failure is swallowed — the
outcome does not depend on whether the blob deletion succeeds — the row is
removed, and the response is 200; in src/server.js a blob-deletion failure
instead propagates as 500 with the row retained. -/
theorem c4_amended_part000_swallows (db : DB) (id : Nat) (row : Row) (ok : Bool)
    (h : findRow db id = some row) :
    deletePart000 db id ok =
      { status := 200, db := removeRow db id,
        blobDeletes := if row.file_url.isSome then 1 else 0 } ∧
    deletePart000 db id true = deletePart000 db id false ∧
    findRow (deletePart000 db id ok).db id = none := by
  refine ⟨?_, ?_, ?_⟩
  · unfold deletePart000
    rw [h]
    cases hu : row.file_url <;> simp [hu]
  · rfl
  · unfold deletePart000
    rw [h]
    cases hu : row.file_url <;> simpa [hu] using findRow_removeRow db id

/-- Witness for the amended C4 at a concrete failing blob deletion. -/
theorem c4_amended_part000_swallows_witness :
    findRow dbAB 1 = some rowA ∧
    deletePart000 dbAB 1 false =
      { status := 200, db := removeRow dbAB 1,
        blobDeletes := if rowA.file_url.isSome then 1 else 0 } :=
  ⟨by decide, (c4_amended_part000_swallows dbAB 1 rowA false (by decide)).1⟩

/-- Claim C5 amended: multer rejects both kinds of bad upload at the parsing
boundary, before the handler runs and before any byte reaches the blob
store (table unchanged, no upload attempted) — but only the oversized case
is answered 400; a non-allow-listed extension/MIME type is answered 500,
because the `fileFilter` error is not a `MulterError`. -/
theorem c5_amended_multer_boundary (db : DB) (now : Nat)
    (title description : Option String) (upl : Option String) (f g : FileUpload)
    (hbig : fileSizeLimit < g.size) (hgok : fileFilterOk g = true)
    (hfbad : fileFilterOk f = false) :
    postRouteServerJs db now title description (some g) upl =
      { status := 400, db := db, body := none, uploadAttempted := false } ∧
    postRouteServerJs db now title description (some f) upl =
      { status := 500, db := db, body := none, uploadAttempted := false } := by
  constructor
  · simp [postRouteServerJs, multerGate, hgok, hbig, errorMiddlewareStatus]
  · simp [postRouteServerJs, multerGate, hfbad, errorMiddlewareStatus]

/-- Witness for the amended C5 at a concrete oversized file and a concrete
disallowed file. -/
theorem c5_amended_multer_boundary_witness :
    fileSizeLimit < fileBigPng.size ∧ fileFilterOk fileBigPng = true ∧
    fileFilterOk fileExe = false ∧
    (postRouteServerJs dbAB 5 (some "milk") none (some fileBigPng) (some locUrl) =
      { status := 400, db := dbAB, body := none, uploadAttempted := false } ∧
     postRouteServerJs dbAB 5 (some "milk") none (some fileExe) (some locUrl) =
      { status := 500, db := dbAB, body := none, uploadAttempted := false }) :=
  ⟨by decide, by decide, by decide,
   c5_amended_multer_boundary dbAB 5 (some "milk") none (some locUrl) fileExe fileBigPng
     (by decide) (by decide) (by decide)⟩

/-- Claim C7: an update whose id matches no stored row is answered 404, no
row is created, and the table is left completely unchanged. -/
theorem c7_update_unknown_id_404 (db : DB) (now id : Nat)
    (title description : Option String) (completed : Option Bool)
    (h : ∀ r ∈ db.rows, r.id ≠ id) :
    updateTodos db now id title description completed =
      { status := 404, db := db, body := none } := by
  have hany : (db.rows.any (fun r => r.id == id)) = false := by
    simp only [List.any_eq_false]
    intro r hr
    simpa using h r hr
  simp [updateTodos, hany]

/-- Witness for C7 at a concrete unknown id. -/
theorem c7_update_unknown_id_404_witness :
    (∀ r ∈ dbAB.rows, r.id ≠ 99) ∧
    updateTodos dbAB 7 99 (some "x") none (some true) =
      { status := 404, db := dbAB, body := none } :=
  ⟨by decide, c7_update_unknown_id_404 dbAB 7 99 (some "x") none (some true) (by decide)⟩

/-- Claim C9: the list route returns a permutation of the stored rows,
sorted by `created_at` descending; the empty table yields the empty array,
not an error; the listing has exactly as many items as the table has rows,
and each successful insert grows the listing by exactly one item. -/
theorem c9_list_ordering (db : DB) (now : Nat) (t : String) (d u n : Option String) :
    (listTodos db).Perm db.rows ∧
    List.Sorted createdDesc (listTodos db) ∧
    listTodos emptyDB = [] ∧
    (listTodos db).length = db.rows.length ∧
    insertTodo db now (some t) d u n =
      some (insertedRow db now t d u n,
            { rows := db.rows ++ [insertedRow db now t d u n], nextId := db.nextId + 1 }) ∧
    (listTodos { rows := db.rows ++ [insertedRow db now t d u n],
                 nextId := db.nextId + 1 }).length = (listTodos db).length + 1 := by
  refine ⟨List.perm_insertionSort createdDesc db.rows,
          List.sorted_insertionSort createdDesc db.rows, rfl,
          (List.perm_insertionSort createdDesc db.rows).length_eq, rfl, ?_⟩
  have h1 := (List.perm_insertionSort createdDesc
      (db.rows ++ [insertedRow db now t d u n])).length_eq
  have h2 := (List.perm_insertionSort createdDesc db.rows).length_eq
  simp only [listTodos]
  rw [h1, h2]
  simp

/-- Claim C10: the update route overwrites `title`, `description` and
`completed` unconditionally with the body values — when the id exists, a
missing title makes the statement fail on the NOT NULL constraint (500,
table unchanged) instead of keeping the old title, and with a supplied
title every matching row ends up with exactly the body values. -/
theorem c10_update_overwrites_unconditionally (db : DB) (now id : Nat)
    (d : Option String) (c : Option Bool) (r0 : Row)
    (h0 : r0 ∈ db.rows) (hid : r0.id = id) :
    updateTodos db now id none d c = { status := 500, db := db, body := none } ∧
    ∀ t : String, ∀ s ∈ (updateTodos db now id (some t) d c).db.rows,
      s.id = id → s.title = t ∧ s.description = d ∧ s.completed = c ∧ s.updated_at = now := by
  have hany : (db.rows.any (fun r => r.id == id)) = true := by
    simp only [List.any_eq_true]
    exact ⟨r0, h0, by simpa using hid⟩
  constructor
  · simp [updateTodos, hany]
  · intro t s hs hsid
    simp only [updateTodos, hany, if_true] at hs
    rcases List.mem_map.mp hs with ⟨r, hr, hfr⟩
    by_cases hc : (r.id == id)
    · rw [if_pos hc] at hfr
      subst hfr
      simp [updateRowFn]
    · rw [if_neg hc] at hfr
      subst hfr
      exact absurd (by simpa using hsid) (by simpa using hc)

/-- Witness for C10 at a concrete existing id. -/
theorem c10_update_overwrites_unconditionally_witness :
    rowA ∈ dbAB.rows ∧ rowA.id = 1 ∧
    updateTodos dbAB 7 1 none (some "z") (some true) =
      { status := 500, db := dbAB, body := none } :=
  ⟨by decide, by decide,
   (c10_update_overwrites_unconditionally dbAB 7 1 (some "z") (some true) rowA
     (by decide) (by decide)).1⟩

/-- Claim C8: a successful update of an existing row answers 200, changes
only `title`, `description`, `completed` and `updated_at` of that row —
its `id`, `file_url`, `file_name` and `created_at` are unchanged and
`updated_at` becomes the current time — keeps the SERIAL counter and the
row count, and leaves every other row in place (rows with a different id
survive unchanged in both directions). -/
theorem c8_update_frame (db : DB) (now id : Nat) (t : String)
    (d : Option String) (c : Option Bool) (r : Row)
    (hm : r ∈ db.rows) (hid : r.id = id) :
    (updateTodos db now id (some t) d c).status = 200 ∧
    (updateTodos db now id (some t) d c).db.nextId = db.nextId ∧
    (updateTodos db now id (some t) d c).db.rows.length = db.rows.length ∧
    updateRowFn now t d c r ∈ (updateTodos db now id (some t) d c).db.rows ∧
    (updateRowFn now t d c r).id = r.id ∧
    (updateRowFn now t d c r).file_url = r.file_url ∧
    (updateRowFn now t d c r).file_name = r.file_name ∧
    (updateRowFn now t d c r).created_at = r.created_at ∧
    (updateRowFn now t d c r).title = t ∧
    (updateRowFn now t d c r).description = d ∧
    (updateRowFn now t d c r).completed = c ∧
    (updateRowFn now t d c r).updated_at = now ∧
    (∀ s ∈ db.rows, s.id ≠ id → s ∈ (updateTodos db now id (some t) d c).db.rows) ∧
    (∀ s ∈ (updateTodos db now id (some t) d c).db.rows, s.id ≠ id → s ∈ db.rows) := by
  have hany : (db.rows.any (fun r => r.id == id)) = true := by
    simp only [List.any_eq_true]
    exact ⟨r, hm, by simpa using hid⟩
  have hrows : (updateTodos db now id (some t) d c).db.rows =
      db.rows.map (fun s => if s.id == id then updateRowFn now t d c s else s) := by
    simp [updateTodos, hany]
  refine ⟨by simp [updateTodos, hany], by simp [updateTodos, hany], ?_, ?_, rfl, rfl, rfl, rfl,
          rfl, rfl, rfl, rfl, ?_, ?_⟩
  · rw [hrows, List.length_map]
  · rw [hrows]
    have : (if r.id == id then updateRowFn now t d c r else r) = updateRowFn now t d c r := by
      rw [if_pos (by simpa using hid)]
    exact this ▸ List.mem_map_of_mem _ hm
  · intro s hs hsid
    rw [hrows]
    have : (if s.id == id then updateRowFn now t d c s else s) = s := by
      rw [if_neg (by simpa using hsid)]
    exact this ▸ List.mem_map_of_mem _ hs
  · intro s hs hsid
    rw [hrows] at hs
    rcases List.mem_map.mp hs with ⟨r1, hr1, hfr⟩
    by_cases hc : (r1.id == id)
    · rw [if_pos hc] at hfr
      subst hfr
      exact absurd (by simpa [updateRowFn] using hc) hsid
    · rw [if_neg hc] at hfr
      subst hfr
      exact hr1

/-- Witness for C8 at a concrete update of row 1. -/
theorem c8_update_frame_witness :
    rowA ∈ dbAB.rows ∧ rowA.id = 1 ∧
    (updateTodos dbAB 7 1 (some "eggs") (some "dozen") (some true)).status = 200 ∧
    updateRowFn 7 "eggs" (some "dozen") (some true) rowA ∈
      (updateTodos dbAB 7 1 (some "eggs") (some "dozen") (some true)).db.rows :=
  ⟨by decide, by decide,
   (c8_update_frame dbAB 7 1 "eggs" (some "dozen") (some true) rowA (by decide) (by decide)).1,
   (c8_update_frame dbAB 7 1 "eggs" (some "dozen") (some true) rowA
     (by decide) (by decide)).2.2.2.1⟩

/-- Attachment consistency of a row: `file_url` and `file_name` are both
present or both absent. -/
def attachmentOk (r : Row) : Prop := r.file_url.isSome = r.file_name.isSome

instance (r : Row) : Decidable (attachmentOk r) :=
  inferInstanceAs (Decidable (r.file_url.isSome = r.file_name.isSome))

/-- Well-formedness of the table: every row is attachment-consistent and has
its id below the SERIAL counter, and ids are pairwise distinct (so a freed
id is never reused — the counter only grows). -/
def dbWF (db : DB) : Prop :=
  (∀ r ∈ db.rows, attachmentOk r ∧ r.id < db.nextId) ∧ (db.rows.map Row.id).Nodup

instance (db : DB) : Decidable (dbWF db) :=
  inferInstanceAs (Decidable (_ ∧ _))

/-- Helper: a successful INSERT with a consistent attachment pair preserves
well-formedness. -/
lemma dbWF_insert (db : DB) (h : dbWF db) (now : Nat) (t : String)
    (d : Option String) (u n : Option String) (hun : u.isSome = n.isSome) :
    dbWF { rows := db.rows ++ [insertedRow db now t d u n], nextId := db.nextId + 1 } := by
  obtain ⟨h1, h2⟩ := h
  constructor
  · intro r hr
    rcases List.mem_append.mp hr with hin | hnew
    · obtain ⟨ha, hb⟩ := h1 r hin
      exact ⟨ha, Nat.lt_succ_of_lt hb⟩
    · have he : r = insertedRow db now t d u n := by simpa using hnew
      subst he
      exact ⟨hun, Nat.lt_succ_self _⟩
  · rw [List.map_append]
    refine List.Nodup.append h2 (List.nodup_singleton _) ?_
    intro a ha hb
    rcases List.mem_map.mp ha with ⟨r, hr, hid⟩
    have hlt : a < db.nextId := hid ▸ (h1 r hr).2
    have : a = db.nextId := by simpa [insertedRow] using hb
    exact absurd (this ▸ hlt) (Nat.lt_irrefl _)

/-- Helper: deleting the rows of an id preserves well-formedness. -/
lemma dbWF_remove (db : DB) (h : dbWF db) (id : Nat) : dbWF (removeRow db id) := by
  obtain ⟨h1, h2⟩ := h
  constructor
  · intro r hr
    exact h1 r (List.mem_of_mem_filter hr)
  · exact List.Nodup.sublist (List.Sublist.map Row.id (List.filter_sublist _)) h2

/-- Helper: the update route preserves well-formedness. -/
lemma dbWF_update (db : DB) (h : dbWF db) (now id : Nat)
    (title description : Option String) (completed : Option Bool) :
    dbWF (updateTodos db now id title description completed).db := by
  obtain ⟨h1, h2⟩ := h
  unfold updateTodos
  by_cases hany : db.rows.any (fun r => r.id == id)
  · rw [if_pos hany]
    cases title with
    | none => exact ⟨h1, h2⟩
    | some t =>
      constructor
      · intro r hr
        rcases List.mem_map.mp hr with ⟨r0, hr0, hfr⟩
        by_cases hc : (r0.id == id)
        · rw [if_pos hc] at hfr
          subst hfr
          obtain ⟨ha, hb⟩ := h1 r0 hr0
          exact ⟨ha, hb⟩
        · rw [if_neg hc] at hfr
          subst hfr
          exact h1 r0 hr0
      · have hmap : ∀ l : List Row, (l.map
            (fun r => if r.id == id then updateRowFn now t description completed r else r)).map
              Row.id = l.map Row.id := by
          intro l
          induction l with
          | nil => rfl
          | cons a l ih =>
            simp only [List.map_cons, ih, List.cons.injEq, and_true]
            split <;> rfl
        rw [hmap]
        exact h2
  · rw [if_neg hany]
    exact ⟨h1, h2⟩

/-- Claim C6 amended: every operation — all four create variants, update and
both delete variants — preserves the invariant that in each stored row
`file_url` and `file_name` are both present or both absent, together with
id uniqueness; but the clause "title is never empty" is NOT an invariant:
src/server.js and part_001 insert an empty title unchecked, and the update
route overwrites `title` with whatever the body supplies, including `""`. -/
theorem c6_amended_wf_preserved (db : DB) (h : dbWF db) (now id : Nat)
    (title description : Option String) (completed : Option Bool)
    (file : Option FileUpload) (upl : Option String) (sc ok : Bool) :
    dbWF (createServerJs db now title description file upl).db ∧
    dbWF (createPart000 db now true sc title description file upl).db ∧
    dbWF (createPart001 db now title description file upl).db ∧
    dbWF (createPart002 db now title description file upl).db ∧
    dbWF (updateTodos db now id title description completed).db ∧
    dbWF (deleteServerJs db id ok).db ∧
    dbWF (deletePart000 db id ok).db := by
  refine ⟨?_, ?_, ?_, ?_, dbWF_update db h now id title description completed, ?_, ?_⟩
  · unfold createServerJs
    cases file with
    | some f => cases upl <;> exact h
    | none =>
      cases title with
      | none => exact h
      | some t => simpa [insertTodo] using dbWF_insert db h now t description none none rfl
  · unfold createPart000
    cases title with
    | none => simpa [jsTruthy] using h
    | some t =>
      by_cases ht : jsTruthy (some t)
      · cases file with
        | some f =>
          cases hsc : sc with
          | true =>
            cases upl with
            | none =>
              simpa [ht, insertTodo] using (dbWF_insert db h now t description none none rfl)
            | some loc =>
              simpa [ht, insertTodo] using
                (dbWF_insert db h now t description (some loc) (some f.originalname) rfl)
          | false =>
            simpa [ht, insertTodo] using (dbWF_insert db h now t description none none rfl)
        | none =>
          simpa [ht, insertTodo] using (dbWF_insert db h now t description none none rfl)
      · simp only [Bool.not_eq_true] at ht
        simpa [ht] using h
  · unfold createPart001
    cases file with
    | some f =>
      cases upl with
      | none => exact h
      | some loc =>
        cases title with
        | none => exact h
        | some t =>
          simpa [insertTodo] using
            (dbWF_insert db h now t description (some loc)
              (some (toString now ++ "-" ++ f.originalname)) rfl)
    | none =>
      cases title with
      | none => exact h
      | some t => simpa [insertTodo] using (dbWF_insert db h now t description none none rfl)
  · unfold createPart002
    cases title with
    | none => simpa [jsTruthy] using h
    | some t =>
      by_cases ht : jsTruthy (some t)
      · cases file with
        | some f => simpa [ht] using h
        | none =>
          simpa [ht, insertTodo] using (dbWF_insert db h now t description none none rfl)
      · simp only [Bool.not_eq_true] at ht
        simpa [ht] using h
  · unfold deleteServerJs
    cases hf : findRow db id with
    | none => exact h
    | some row =>
      cases hu : row.file_url with
      | none => simpa [hu] using dbWF_remove db h id
      | some loc =>
        cases ok with
        | true => simpa [hu] using dbWF_remove db h id
        | false => simpa [hu] using h
  · unfold deletePart000
    cases hf : findRow db id with
    | none => exact h
    | some row => cases hu : row.file_url <;> simpa [hu] using dbWF_remove db h id

/-- Witness for the amended C6 at the concrete two-row table. -/
theorem c6_amended_wf_preserved_witness :
    dbWF dbAB ∧ dbWF (updateTodos dbAB 7 1 (some "x") none (some true)).db :=
  ⟨by decide,
   (c6_amended_wf_preserved dbAB (by decide) 7 1 (some "x") none (some true)
     (some filePng) (some locUrl) true true).2.2.2.2.1⟩

end WorkshopDemo
